import Mathlib

/-!
Verification of the Campaign Call Dispatch subsystem of the dograh repository.

Shallow embedding of:
  - `api/services/campaign/source_sync.py` (header normalization and source validation),
  - `api/services/campaign/sources/csv.py` (CSV row ingestion and `source_uuid` generation),
  - `api/tasks/campaign_tasks.py` (`sync_campaign_source`, `process_campaign_batch`),
  - `api/routes/telephony.py` (`_process_status_update`),
  - `api/routes/campaign.py` (`create_campaign`, `_get_org_concurrent_limit`,
    request validation bounds),
and, where the repository file `api/services/campaign/campaign_call_dispatcher.py`
is not available, a model of `CampaignCallDispatcher.process_batch` built from the
specification (marked `Modelled from the spec:` below).

Effectful Python code is embedded as pure functions from explicit inputs (the
values the code reads from the database / request) to the list of externally
visible effects it performs (database updates, published events) plus a flag for
a re-raised exception.
-/

/-! ## Embedding of `api/services/campaign/source_sync.py` -/

/-- Embeds the dataclass `ValidationError` (message + optional offending rows). -/
structure ValidationError where
  message : String
  invalid_rows : Option (List Nat) := none
  deriving DecidableEq

/-- Embeds the dataclass `ValidationResult`. -/
structure ValidationResult where
  is_valid : Bool
  error : Option ValidationError := none
  deriving DecidableEq

/-- Python whitespace characters recognised by `str.strip`. -/
def py_is_space (c : Char) : Bool :=
  c = ' ' || c = '\t' || c = '\n' || c = '\r' || c = '\x0b' || c = '\x0c'

/-- Python `str.strip()`: drop leading and trailing whitespace (character-level
embedding of `String.trim`). -/
def py_strip (s : String) : String :=
  String.mk (((s.data.dropWhile py_is_space).reverse.dropWhile py_is_space).reverse)

/-- Python `str.lower()` (character-level embedding of `String.toLower`). -/
def py_lower (s : String) : String :=
  String.mk (s.data.map Char.toLower)

/-- Python `str.startswith(p)` (character-level embedding of
`String.startsWith`). -/
def py_startswith (s p : String) : Bool :=
  p.data.isPrefixOf s.data

/-- Embeds `CampaignSourceSyncService.normalize_headers`: strip whitespace and
lowercase each header. -/
def normalize_headers (headers : List String) : List String :=
  headers.map (fun h => py_lower (py_strip h))

/-- Embeds the first validation loop of `validate_source_data`: walking `rows`
with 1-based row numbers starting at 2 (header skipped), collect the row numbers
whose phone cell (if the row is long enough) is non-empty and does not start
with `+`. Rows too short to have the phone column are skipped. -/
def collect_invalid_rows (phone_number_idx : Nat) : Nat → List (List String) → List Nat
  | _, [] => []
  | row_idx, row :: rest =>
    if row.length ≤ phone_number_idx then
      collect_invalid_rows phone_number_idx (row_idx + 1) rest
    else
      let phone_number := py_strip (row.getD phone_number_idx "")
      if phone_number ≠ "" && !(py_startswith phone_number "+") then
        row_idx :: collect_invalid_rows phone_number_idx (row_idx + 1) rest
      else
        collect_invalid_rows phone_number_idx (row_idx + 1) rest

/-- Embeds the duplicate-detection loop of `validate_source_data`: `seen_phones`
is the dict phone → first row number; a row whose (non-empty) phone is already
in `seen_phones` is reported as a duplicate row. -/
def collect_duplicate_rows (phone_number_idx : Nat) :
    Nat → List (String × Nat) → List (List String) → List Nat
  | _, _, [] => []
  | row_idx, seen_phones, row :: rest =>
    if row.length ≤ phone_number_idx then
      collect_duplicate_rows phone_number_idx (row_idx + 1) seen_phones rest
    else
      let phone_number := py_strip (row.getD phone_number_idx "")
      if phone_number = "" then
        collect_duplicate_rows phone_number_idx (row_idx + 1) seen_phones rest
      else if phone_number ∈ seen_phones.map Prod.fst then
        row_idx :: collect_duplicate_rows phone_number_idx (row_idx + 1) seen_phones rest
      else
        collect_duplicate_rows phone_number_idx (row_idx + 1)
          (seen_phones ++ [(phone_number, row_idx)]) rest

/-- Embeds the error-message row formatting: at most 5 row numbers are shown,
plus an `and k more` suffix. -/
def format_rows_str (rs : List Nat) : String :=
  if rs.length > 5 then
    String.intercalate ", " ((rs.take 5).map Nat.repr)
      ++ " and " ++ Nat.repr (rs.length - 5) ++ " more"
  else
    String.intercalate ", " (rs.map Nat.repr)

/-- Embeds `CampaignSourceSyncService.validate_source_data`. -/
def validate_source_data (headers : List String) (rows : List (List String)) :
    ValidationResult :=
  let normalized_headers := normalize_headers headers
  if "phone_number" ∉ normalized_headers then
    { is_valid := false
      error := some { message := "Source must contain a \x27phone_number\x27 column" } }
  else
    let phone_number_idx := normalized_headers.indexOf "phone_number"
    let invalid_rows := collect_invalid_rows phone_number_idx 2 rows
    if invalid_rows ≠ [] then
      { is_valid := false
        error := some
          { message := "Invalid phone numbers in rows: " ++ format_rows_str invalid_rows
              ++ ". All phone numbers must include country code (start with \x27+\x27)"
            invalid_rows := some invalid_rows } }
    else
      let duplicate_rows := collect_duplicate_rows phone_number_idx 2 [] rows
      if duplicate_rows ≠ [] then
        { is_valid := false
          error := some
            { message := "Duplicate phone numbers found in rows: "
                ++ format_rows_str duplicate_rows
                ++ ". Phone numbers in a campaign must be unique."
              invalid_rows := some duplicate_rows } }
      else
        { is_valid := true }

/-! Specification-side predicates for claim C9, written from the claim text
(not from the code), to be compared with `validate_source_data`. -/

/-- The trimmed phone cell of `row` at column `idx` (empty for missing). -/
def phone_cell (idx : Nat) (row : List String) : String :=
  py_strip (row.getD idx "")

/-- Claim side: a row is acceptable when it is too short to have the phone
column, or its trimmed phone value is empty or starts with `+`. -/
def phone_ok (idx : Nat) (row : List String) : Prop :=
  row.length ≤ idx ∨ phone_cell idx row = "" ∨ py_startswith (phone_cell idx row) "+" = true

instance (idx : Nat) (row : List String) : Decidable (phone_ok idx row) := by
  unfold phone_ok; infer_instance

/-- Claim side: the non-empty trimmed phone values of the rows long enough to
have the phone column, in order. -/
def phones_of (idx : Nat) (rows : List (List String)) : List String :=
  (rows.filter (fun row => idx < row.length && phone_cell idx row ≠ "")).map (phone_cell idx)

/-- Claim C9, formalized from its own words: validation succeeds iff the
normalized headers contain `phone_number`, every long-enough row has an empty
or `+`-prefixed trimmed phone, and no non-empty trimmed phone repeats. -/
def c9_spec (headers : List String) (rows : List (List String)) : Prop :=
  "phone_number" ∈ normalize_headers headers ∧
  (∀ row ∈ rows, phone_ok ((normalize_headers headers).indexOf "phone_number") row) ∧
  (phones_of ((normalize_headers headers).indexOf "phone_number") rows).Nodup

instance (headers : List String) (rows : List (List String)) :
    Decidable (c9_spec headers rows) := by
  unfold c9_spec
  infer_instance

/-! ## Embedding of `api/services/campaign/sources/csv.py` (`CSVSyncService`) -/

/-- Embeds a queued-run record as built by `CSVSyncService.sync_source_data`
(the dict appended to `queued_runs`). -/
structure QueuedRunRow where
  campaign_id : Nat
  source_uuid : String
  context_variables : List (String × String)
  state : String
  deriving DecidableEq

/-- Embeds the f-string `csv_{file_hash}_row_{idx}`. -/
def mk_source_uuid (file_hash : String) (idx : Nat) : String :=
  "csv_" ++ file_hash ++ "_row_" ++ Nat.repr idx

/-- Python `dict(zip(headers, padded_row)).get(key)`: on duplicate keys the last
binding wins, missing keys give `none`. -/
def dict_get (kvs : List (String × String)) (key : String) : Option String :=
  ((kvs.filter (fun kv => kv.1 = key)).getLast?).map Prod.snd

/-- Python truthiness of `Optional[str]`: falsy when `None` or empty. -/
def py_truthy (v : Option String) : Bool :=
  match v with
  | none => false
  | some s => s ≠ ""

/-- Embeds the row loop of `CSVSyncService.sync_source_data`: 1-based
`enumerate(rows, 1)`, padding each row with `""` to the header count, building
`context_variables = dict(zip(headers, padded_row))`, skipping rows whose
`phone_number` value is missing or empty (Python falsiness), and generating
`source_uuid = csv_{file_hash}_row_{idx}`. -/
def build_queued_runs (campaign_id : Nat) (file_hash : String) (headers : List String) :
    Nat → List (List String) → List QueuedRunRow
  | _, [] => []
  | idx, row_values :: rest =>
    let padded_row := row_values ++ List.replicate (headers.length - row_values.length) ""
    let context_vars := headers.zip padded_row
    if py_truthy (dict_get context_vars "phone_number") then
      { campaign_id := campaign_id
        source_uuid := mk_source_uuid file_hash idx
        context_variables := context_vars
        state := "queued" } ::
      build_queued_runs campaign_id file_hash headers (idx + 1) rest
    else
      build_queued_runs campaign_id file_hash headers (idx + 1) rest

/-- Embeds the queued-run construction of `CSVSyncService.sync_source_data`
after the CSV download: with fewer than a header row plus one data row nothing
is created; otherwise the header row is normalized and the data rows are turned
into queued runs. `file_hash` stands for `hashlib.md5(file_key).hexdigest()[:8]`,
an arbitrary string determined by the file key. -/
def sync_source_data_rows (campaign_id : Nat) (file_hash : String)
    (csv_data : List (List String)) : List QueuedRunRow :=
  if csv_data.length < 2 then []
  else
    build_queued_runs campaign_id file_hash (normalize_headers (csv_data.headD []))
      1 csv_data.tail

/-! Decimal-decoding helpers used to prove that `Nat.repr` (the embedding of
Python `str(idx)` inside the f-string) is injective. -/

/-- Numeric value of a decimal digit character. -/
def digit_val (c : Char) : Nat := c.toNat - '0'.toNat

/-- Decode a decimal digit string back to a number. -/
def decode_digits (l : List Char) : Nat :=
  l.foldl (fun a c => a * 10 + digit_val c) 0

/-! ## Embedding of `api/tasks/campaign_tasks.py` -/

/-- Campaign states (`Campaign.state`). -/
inductive CState
  | draft | syncing | running | paused | completed | failed
  deriving DecidableEq

/-- The campaign fields read by `sync_campaign_source`. -/
structure CampaignInfo where
  source_type : String
  source_id : String
  deriving DecidableEq

/-- Externally visible effects of `sync_campaign_source`: `update_campaign`
calls (recording which fields are set) and the `sync_completed` event. -/
inductive SyncEffect
  | update_campaign (state : Option CState) (completed_at_set : Bool)
      (source_sync_status : Option String) (source_sync_error : Option String)
      (source_last_synced_at_set : Bool)
  | publish_sync_completed (total_rows : Nat) (source_type source_id : String)
  deriving DecidableEq

/-- Embeds `sync_campaign_source`. Inputs are the values the coroutine obtains
from its collaborators: the campaign row (`none` when the lookup finds
nothing) and the result of `sync_service.sync_source_data` (`Except` models a
raised exception, including an unknown source type in `get_sync_service`).
Returns the effect list and whether the coroutine re-raises. -/
def sync_campaign_source (campaign_id : Nat) (campaign : Option CampaignInfo)
    (sync_result : Except String Nat) : List SyncEffect × Bool :=
  match campaign with
  | none =>
      ([.update_campaign (some .failed) false (some "failed")
          (some ("Campaign " ++ Nat.repr campaign_id ++ " not found")) false], true)
  | some campaign =>
    match sync_result with
    | .error e =>
        ([.update_campaign (some .failed) false (some "failed") (some e) false], true)
    | .ok rows_synced =>
      if rows_synced = 0 then
        ([.update_campaign (some .completed) true (some "completed") none true], false)
      else
        ([.update_campaign (some .running) false (some "completed") none true,
          .publish_sync_completed rows_synced campaign.source_type campaign.source_id],
         false)

/-- The state (if any) written by a `SyncEffect`. -/
def sync_effect_state : SyncEffect → Option CState
  | .update_campaign st _ _ _ _ => st
  | .publish_sync_completed _ _ _ => none

/-- The campaign states written by a run of `sync_campaign_source`. -/
def sync_states_written (campaign_id : Nat) (campaign : Option CampaignInfo)
    (sync_result : Except String Nat) : List CState :=
  (sync_campaign_source campaign_id campaign sync_result).1.filterMap sync_effect_state

/-- Result of `campaign_call_dispatcher.process_batch` as observed by
`process_campaign_batch`: a processed count, a raised
`ConcurrentSlotAcquisitionError` (carrying its message `str(e)`), or any other
raised exception. -/
inductive BatchResult
  | ok (processed_count : Nat)
  | slot_timeout (msg : String)
  | other_error (msg : String)
  deriving DecidableEq

/-- Externally visible effects of `process_campaign_batch`. -/
inductive TaskEffect
  | publish_batch_completed (campaign_id processed_count failed_count batch_size : Nat)
  | publish_batch_failed (campaign_id : Nat) (error : String) (processed_count : Nat)
  | update_campaign_state (campaign_id : Nat) (state : CState)
  deriving DecidableEq

/-- Embeds `process_campaign_batch`: on success publish `batch_completed`
(with `failed_count = 0`); on `ConcurrentSlotAcquisitionError` publish
`batch_failed` with the slot-timeout message, set the campaign state to
`failed` and re-raise; on any other exception publish `batch_failed`, set the
state to `failed` and re-raise. -/
def process_campaign_batch (campaign_id batch_size : Nat) (dispatch : BatchResult) :
    List TaskEffect × Bool :=
  match dispatch with
  | .ok processed_count =>
      ([.publish_batch_completed campaign_id processed_count 0 batch_size], false)
  | .slot_timeout msg =>
      ([.publish_batch_failed campaign_id
          ("Concurrent slot acquisition timeout: " ++ msg) 0,
        .update_campaign_state campaign_id .failed], true)
  | .other_error msg =>
      ([.publish_batch_failed campaign_id msg 0,
        .update_campaign_state campaign_id .failed], true)

/-- The campaign states written by a run of `process_campaign_batch`. -/
def batch_states_written (campaign_id batch_size : Nat) (dispatch : BatchResult) :
    List CState :=
  (process_campaign_batch campaign_id batch_size dispatch).1.filterMap
    (fun e => match e with
      | .update_campaign_state _ st => some st
      | _ => none)

/-- The spec's campaign state graph
`draft→syncing→running→{paused↔running, completed, failed}` (claim C4 side). -/
def allowed_edge : CState → CState → Prop
  | .draft, .syncing => True
  | .syncing, .running => True
  | .running, .paused => True
  | .paused, .running => True
  | .running, .completed => True
  | .running, .failed => True
  | _, _ => False

instance (a b : CState) : Decidable (allowed_edge a b) := by
  cases a <;> cases b <;> simp only [allowed_edge] <;> infer_instance

/-- The state graph actually realized by the code: the spec graph plus the
direct edges `syncing→completed` (zero-row sync) and `syncing→failed`
(sync error). -/
def amended_edge (a b : CState) : Prop :=
  allowed_edge a b ∨ (a = .syncing ∧ b = .completed) ∨ (a = .syncing ∧ b = .failed)

instance (a b : CState) : Decidable (amended_edge a b) := by
  unfold amended_edge; infer_instance

/-! ## Embedding of `_process_status_update` (`api/routes/telephony.py`) -/

/-- The workflow-run fields read by `_process_status_update`.
`gathered_call_tags` models `workflow_run.gathered_context`: outer `none` for a
`None` context, inner `none` for a context without a `call_tags` key. -/
structure WorkflowRunInfo where
  state : String
  campaign_id : Option Nat
  queued_run_id : Option Nat
  gathered_call_tags : Option (Option (List String))
  deriving DecidableEq

/-- The status fields read by `_process_status_update`. -/
structure StatusUpdate where
  status : String
  deriving DecidableEq

/-- Embeds Python `status.replace("-", "_")`: the pattern is the single
character `-`, so the replacement is the character map sending `-` to `_`. -/
def normalize_reason (s : String) : String :=
  String.mk (s.data.map (fun c => if c = '-' then '_' else c))

/-- Python `workflow_run.gathered_context.get("call_tags", []) if
workflow_run.gathered_context else []`. -/
def call_tags_of (run : WorkflowRunInfo) : List String :=
  match run.gathered_call_tags with
  | none => []
  | some tags => tags.getD []

/-- Externally visible effects of `_process_status_update`. The constructors
`mark_retry` and `mark_failed_permanently` are never produced by this handler;
they are part of the vocabulary so the spec's claim about the handler can be
stated and compared against what the code emits. -/
inductive TelEffect
  | update_run_logs (run_id : Nat)
  | release_call_slot (run_id : Nat)
  | publish_retry_needed (workflow_run_id : Nat) (reason : String)
      (campaign_id : Nat) (queued_run_id : Option Nat)
  | mark_run_completed (run_id : Nat) (call_tags : Option (List String))
  | mark_retry (run_id : Nat)
  | mark_failed_permanently (run_id : Nat)
  deriving DecidableEq

/-- Embeds `_process_status_update`: log append always happens for a found run;
runs already in state `completed` are skipped; a `completed` status releases
the slot (campaign calls only) and completes the run; a
failed/busy/no-answer/canceled/error status releases the slot (campaign calls
only), publishes `retry_needed` for busy/no-answer campaign calls, and
completes the run with `not_connected` / `telephony_<status>` tags appended. -/
def process_status_update (workflow_run_id : Nat) (run : Option WorkflowRunInfo)
    (status : StatusUpdate) : List TelEffect :=
  match run with
  | none => []
  | some workflow_run =>
    [TelEffect.update_run_logs workflow_run_id] ++
    (if workflow_run.state = "completed" then []
     else if status.status = "completed" then
       (match workflow_run.campaign_id with
        | some _ => [TelEffect.release_call_slot workflow_run_id]
        | none => []) ++
       [TelEffect.mark_run_completed workflow_run_id none]
     else if status.status ∈ ["failed", "busy", "no-answer", "canceled", "error"] then
       (match workflow_run.campaign_id with
        | some _ => [TelEffect.release_call_slot workflow_run_id]
        | none => []) ++
       (match workflow_run.campaign_id with
        | some campaign_id =>
          if status.status ∈ ["busy", "no-answer"] then
            [TelEffect.publish_retry_needed workflow_run_id
              (normalize_reason status.status) campaign_id workflow_run.queued_run_id]
          else []
        | none => []) ++
       [TelEffect.mark_run_completed workflow_run_id
          (some (call_tags_of workflow_run ++
            ["not_connected", "telephony_" ++ py_lower status.status]))]
     else [])

/-- Modelled from the spec: `RetryPolicy.retry_config` (§4.6) — the dispatch
subsystem's retry policy is not among the provided source files; its
configuration carries an enabled flag, `max_retries`, `retry_delay_seconds`
and per-reason flags. -/
structure RetryConfig where
  enabled : Bool
  max_retries : Nat
  retry_delay_seconds : Nat
  retry_on_busy : Bool
  retry_on_no_answer : Bool
  retry_on_voicemail : Bool
  deriving DecidableEq

/-- Modelled from the spec: `RetryPolicy.should_retry` (§4.6) — retry is denied
once `retry_count ≥ max_retries`, or the per-reason flag is false, or
`enabled` is false. -/
def should_retry (cfg : RetryConfig) (retry_count : Nat) (reason : String) : Bool :=
  cfg.enabled && retry_count < cfg.max_retries &&
    (if reason = "busy" then cfg.retry_on_busy
     else if reason = "no_answer" then cfg.retry_on_no_answer
     else if reason = "voicemail" then cfg.retry_on_voicemail
     else false)

/-- Claim C5, formalized from its own words over the handler's effect
vocabulary: for a retryable terminal status on a not-yet-completed campaign
call, if `should_retry` then the run is requeued via `mark_retry` and
`retry_needed` is emitted, otherwise the run is marked permanently failed. -/
def c5_claim : Prop :=
  ∀ (workflow_run_id : Nat) (run : WorkflowRunInfo) (status : StatusUpdate)
    (cfg : RetryConfig) (retry_count : Nat) (campaign_id : Nat),
    run.campaign_id = some campaign_id →
    run.state ≠ "completed" →
    status.status ∈ ["busy", "no-answer"] →
    (if should_retry cfg retry_count (normalize_reason status.status) then
      TelEffect.mark_retry workflow_run_id ∈
        process_status_update workflow_run_id (some run) status ∧
      (∃ reason qid, TelEffect.publish_retry_needed workflow_run_id reason campaign_id qid ∈
        process_status_update workflow_run_id (some run) status)
    else
      TelEffect.mark_failed_permanently workflow_run_id ∈
        process_status_update workflow_run_id (some run) status)

/-! ## Embedding of `api/routes/campaign.py` -/

/-- Embeds the pydantic model `RetryConfigRequest` with raw (unvalidated)
numeric fields. -/
structure RetryConfigRequest where
  enabled : Bool
  max_retries : Int
  retry_delay_seconds : Int
  retry_on_busy : Bool
  retry_on_no_answer : Bool
  retry_on_voicemail : Bool
  deriving DecidableEq

/-- Embeds the pydantic `Field` constraints of `RetryConfigRequest`:
`max_retries ∈ [0,10]`, `retry_delay_seconds ∈ [30,3600]`. -/
def valid_retry_config_request (r : RetryConfigRequest) : Bool :=
  0 ≤ r.max_retries && r.max_retries ≤ 10 &&
  30 ≤ r.retry_delay_seconds && r.retry_delay_seconds ≤ 3600

/-- Embeds the pydantic model `CreateCampaignRequest` with raw fields. -/
structure CreateCampaignRequest where
  name : String
  workflow_id : Nat
  source_type : String
  source_id : String
  retry_config : Option RetryConfigRequest
  max_concurrency : Option Int
  deriving DecidableEq

/-- Embeds the pydantic `Field` constraints of `CreateCampaignRequest`:
name length in `[1,255]`, `source_type` matching `^(google-sheet|csv)$`,
`max_concurrency ∈ [1,100]` when given, and a valid nested retry config. -/
def valid_create_campaign_request (r : CreateCampaignRequest) : Bool :=
  1 ≤ r.name.length && r.name.length ≤ 255 &&
  (r.source_type = "google-sheet" || r.source_type = "csv") &&
  (match r.max_concurrency with
   | none => true
   | some m => 1 ≤ m && m ≤ 100) &&
  (match r.retry_config with
   | none => true
   | some rc => valid_retry_config_request rc)

/-- Embeds the organization configuration row read by
`_get_org_concurrent_limit`: `value` is the JSON dict (a `None` value is the
outer `none`; the dict itself is an association list, falsy when empty). -/
structure OrgConfig where
  value : Option (List (String × Int))
  deriving DecidableEq

/-- Embeds `_get_org_concurrent_limit`: any lookup exception and any missing /
falsy configuration fall back to the default; otherwise
`int(config.value.get("value", DEFAULT_ORG_CONCURRENCY_LIMIT))`. -/
def get_org_concurrent_limit (config : Except Unit (Option OrgConfig))
    (default_limit : Int) : Int :=
  match config with
  | .error _ => default_limit
  | .ok none => default_limit
  | .ok (some cfg) =>
    match cfg.value with
    | none => default_limit
    | some kvs =>
      if kvs = [] then default_limit
      else ((kvs.lookup "value").getD default_limit)

/-- Result of the `create_campaign` route handler: either an
`HTTPException(status_code, detail)` or a created campaign (`db_client.create_campaign`
is called exactly on this path). -/
inductive CreateResult
  | http_error (status_code : Nat) (detail : String)
  | created (max_concurrency : Option Int) (retry_config : Option RetryConfigRequest)
  deriving DecidableEq

/-- Message of a failed `ValidationResult` (`validation_result.error.message`). -/
def validation_error_message (v : ValidationResult) : String :=
  match v.error with
  | some e => e.message
  | none => ""

/-- Decimal rendering of a Python int (f-string `{m}`). -/
def int_repr (i : Int) : String :=
  if i < 0 then "-" ++ Nat.repr i.natAbs else Nat.repr i.natAbs

/-- The 400 detail for an over-limit `max_concurrency`. -/
def max_concurrency_detail (m org_limit : Int) : String :=
  "max_concurrency (" ++ int_repr m ++ ") cannot exceed organization limit ("
    ++ int_repr org_limit ++ ")"

/-- Embeds the `create_campaign` route handler body (after pydantic
validation): 404 when the workflow lookup fails, 400 when the source
validation fails, 400 when `max_concurrency` exceeds the organization limit,
otherwise the campaign is created. `source_validation` is the result of
`validate_csv_source` / `validate_google_sheet_source` for the request's
source. -/
def create_campaign (request : CreateCampaignRequest) (workflow_name : Option String)
    (source_validation : ValidationResult) (org_limit : Int) : CreateResult :=
  match workflow_name with
  | none => .http_error 404 "Workflow not found"
  | some _ =>
    if (request.source_type = "csv" ∨ request.source_type = "google-sheet") ∧
        source_validation.is_valid = false then
      .http_error 400 (validation_error_message source_validation)
    else
      match request.max_concurrency with
      | some m =>
        if m > org_limit then
          .http_error 400 (max_concurrency_detail m org_limit)
        else
          .created request.max_concurrency request.retry_config
      | none => .created request.max_concurrency request.retry_config

/-! ## Model of `CampaignCallDispatcher.process_batch` (claims C1, C7)

`api/services/campaign/campaign_call_dispatcher.py` is not among the provided
source files; only its tests (`api/tests/test_campaign_call_dispatcher.py`)
and its callers are. The definitions below are therefore modelled from the
specification (§4.1, §4.4, §5): the queue is the durable `queued_runs` table,
`claim_batch` is the atomic `SELECT FOR UPDATE SKIP LOCKED` claim, and — since
the claim step is the only synchronization point and is atomic — a set of
concurrent `process_batch` calls is modelled as an arbitrary linearization
(sequence) of their atomic claim steps. -/

/-- Queued-run lifecycle states (§3). -/
inductive RState
  | queued | processing | processed
  deriving DecidableEq

/-- Modelled from the spec: a `queued_runs` row (§3) — id, owning campaign,
state and retry eligibility timestamp. -/
structure QRun where
  id : Nat
  campaign_id : Nat
  state : RState
  next_retry_at : Option Nat
  deriving DecidableEq

/-- Modelled from the spec: claim eligibility (§4.1) — state `queued` and
never retried or `next_retry_at ≤ now`. -/
def eligible (now : Nat) (campaign_id : Nat) (r : QRun) : Bool :=
  r.campaign_id = campaign_id && r.state = RState.queued &&
    (match r.next_retry_at with
     | none => true
     | some t => t ≤ now)

/-- The eligible queued rows of a campaign, in table order. -/
def eligible_rows (now campaign_id : Nat) (store : List QRun) : List QRun :=
  store.filter (eligible now campaign_id)

/-- The ids of the eligible queued rows of a campaign. -/
def eligible_ids (now campaign_id : Nat) (store : List QRun) : List Nat :=
  (eligible_rows now campaign_id store).map (fun r => r.id)

/-- Modelled from the spec: `claim_batch` (§4.1) — atomically select up to
`batch_size` eligible rows of the campaign, transition them to `processing`,
and return them; concurrent claimers skip rows already taken. -/
def claim_batch (now campaign_id batch_size : Nat) (store : List QRun) :
    List Nat × List QRun :=
  let claimed_ids :=
    ((eligible_rows now campaign_id store).take batch_size).map (fun r => r.id)
  (claimed_ids,
   store.map (fun r =>
     if r.id ∈ claimed_ids then { r with state := RState.processing } else r))

/-- Modelled from the spec: `mark_processed` (§4.1) — idempotent transition of
one row to `processed`. -/
def mark_processed (run_id : Nat) (store : List QRun) : List QRun :=
  store.map (fun r => if r.id = run_id then { r with state := RState.processed } else r)

/-- Modelled from the spec: `CampaignCallDispatcher.process_batch` (§4.4) with
an always-successful admission and telephony collaborator (the regime of the
cited tests): read the campaign state and return 0 claiming nothing unless
`running`; otherwise atomically claim a batch, dispatch every claimed row and
mark it processed. Returns the claimed (dispatched) row ids — the processed
count is their number — and the updated store. -/
def process_batch (campaign_state : Nat → CState) (now campaign_id batch_size : Nat)
    (store : List QRun) : List Nat × List QRun :=
  if campaign_state campaign_id ≠ CState.running then
    ([], store)
  else
    let claimed := claim_batch now campaign_id batch_size store
    (claimed.1, claimed.1.foldl (fun s i => mark_processed i s) claimed.2)

/-- Modelled from the spec (§5, §8): a set of concurrent `process_batch` calls
for one campaign, linearized at their atomic claim steps: each entry of
`batch_sizes` is one caller's batch size; returns each caller's dispatched row
ids and the final store. -/
def run_batches (campaign_state : Nat → CState) (now campaign_id : Nat) :
    List Nat → List QRun → List (List Nat) × List QRun
  | [], store => ([], store)
  | batch_size :: rest, store =>
    let this_call := process_batch campaign_state now campaign_id batch_size store
    let others := run_batches campaign_state now campaign_id rest this_call.2
    (this_call.1 :: others.1, others.2)

/-! # Theorems -/

/-! ## Claim C3 — source-sync completion dichotomy -/

/-- C3: on a successful source sync, `sync_campaign_source` either (when zero
rows were synced) transitions the campaign to `completed` and publishes
nothing, or (otherwise) transitions it to `running` and publishes a
`sync_completed` event; the two conditions `n = 0` / `n ≠ 0` are exclusive and
exhaustive, so exactly one outcome occurs per successful sync. -/
theorem c3_sync_completed_dichotomy (campaign_id : Nat) (c : CampaignInfo) (n : Nat) :
    (n = 0 →
      sync_campaign_source campaign_id (some c) (.ok n) =
        ([.update_campaign (some .completed) true (some "completed") none true], false)) ∧
    (n ≠ 0 →
      sync_campaign_source campaign_id (some c) (.ok n) =
        ([.update_campaign (some .running) false (some "completed") none true,
          .publish_sync_completed n c.source_type c.source_id], false)) := by
  constructor
  · intro h
    simp [sync_campaign_source, h]
  · intro h
    simp [sync_campaign_source, h]

/-- Witness for C3 at concrete inputs: both arms, instantiated. -/
theorem c3_sync_completed_dichotomy_witness :
    sync_campaign_source 7 (some ⟨"csv", "file-key"⟩) (.ok 0) =
      ([.update_campaign (some .completed) true (some "completed") none true], false) ∧
    sync_campaign_source 7 (some ⟨"csv", "file-key"⟩) (.ok 3) =
      ([.update_campaign (some .running) false (some "completed") none true,
        .publish_sync_completed 3 "csv" "file-key"], false) :=
  ⟨(c3_sync_completed_dichotomy 7 ⟨"csv", "file-key"⟩ 0).1 rfl,
   (c3_sync_completed_dichotomy 7 ⟨"csv", "file-key"⟩ 3).2 (by decide)⟩

/-! ## Claim C4 — campaign state graph -/

/-- C4 counterexample: the zero-row sync writes state `completed` while the
campaign is in `syncing` (the docstring of `sync_campaign_source` states the
campaign state is already `syncing`), and `syncing→completed` is not an edge
of the spec's graph, so the claim as stated is false at this input. -/
theorem c4_counterexample :
    sync_states_written 7 (some ⟨"csv", "file-key"⟩) (.ok 0) = [CState.completed] ∧
    ¬ allowed_edge CState.syncing CState.completed := by
  constructor
  · rfl
  · decide

/-- C4 amended: every campaign state written by `sync_campaign_source` (from
`syncing`) and by `process_campaign_batch` (from `running`) follows the graph
extended with the direct edges `syncing→completed` and `syncing→failed`. -/
theorem c4_amended_state_graph (campaign_id : Nat) (c : Option CampaignInfo)
    (res : Except String Nat) (batch_size : Nat) (dispatch : BatchResult) :
    (∀ st ∈ sync_states_written campaign_id c res, amended_edge CState.syncing st) ∧
    (∀ st ∈ batch_states_written campaign_id batch_size dispatch,
      amended_edge CState.running st) := by
  constructor
  · intro st hst
    match c with
    | none =>
      simp [sync_states_written, sync_campaign_source, sync_effect_state] at hst
      subst hst; decide
    | some c =>
      match res with
      | .error e =>
        simp [sync_states_written, sync_campaign_source, sync_effect_state] at hst
        subst hst; decide
      | .ok n =>
        by_cases h : n = 0
        · simp [sync_states_written, sync_campaign_source, sync_effect_state, h] at hst
          subst hst; decide
        · simp [sync_states_written, sync_campaign_source, sync_effect_state, h] at hst
          subst hst; decide
  · intro st hst
    match dispatch with
    | .ok k =>
      simp [batch_states_written, process_campaign_batch] at hst
    | .slot_timeout msg =>
      simp [batch_states_written, process_campaign_batch] at hst
      subst hst; decide
    | .other_error msg =>
      simp [batch_states_written, process_campaign_batch] at hst
      subst hst; decide

/-- Witness for C4's amended theorem at a concrete input. -/
theorem c4_amended_state_graph_witness :
    amended_edge CState.syncing CState.completed :=
  (c4_amended_state_graph 7 (some ⟨"csv", "file-key"⟩) (.ok 0) 10 (.ok 3)).1
    CState.completed (by decide)

/-! ## Claim C2 — slot-acquisition timeout handling -/

/-- C2 counterexample: on a `ConcurrentSlotAcquisitionError` the batch task
sets the campaign state to `failed` — the claim that the campaign state is
not set to `failed` is false at this concrete input. -/
theorem c2_counterexample :
    TaskEffect.update_campaign_state 1 CState.failed ∈
      (process_campaign_batch 1 10 (.slot_timeout "timeout after 30.0s")).1 := by
  decide

/-- C2 amended: `process_campaign_batch` treats a slot-acquisition timeout as
a campaign failure: it publishes `batch_failed` with `processed_count = 0`
and the slot-timeout message, sets the campaign state to `failed`, and
re-raises. -/
theorem c2_amended_slot_timeout_fails_campaign (campaign_id batch_size : Nat)
    (msg : String) :
    process_campaign_batch campaign_id batch_size (.slot_timeout msg) =
      ([.publish_batch_failed campaign_id
          ("Concurrent slot acquisition timeout: " ++ msg) 0,
        .update_campaign_state campaign_id .failed], true) := rfl

/-! ## Claim C6 — idempotent terminal-status delivery -/

/-- C6: delivering a terminal-status event for a workflow run already in state
`completed` performs only the log append: no slot release, no retry event, no
run-completion (hence no counter increment) — the duplicate is a no-op, not an
error. -/
theorem c6_duplicate_delivery_is_noop (workflow_run_id : Nat)
    (run : WorkflowRunInfo) (status : StatusUpdate) (h : run.state = "completed") :
    process_status_update workflow_run_id (some run) status =
      [TelEffect.update_run_logs workflow_run_id] ∧
    (∀ rid, TelEffect.release_call_slot rid ∉
      process_status_update workflow_run_id (some run) status) ∧
    (∀ w reason cid qid, TelEffect.publish_retry_needed w reason cid qid ∉
      process_status_update workflow_run_id (some run) status) ∧
    (∀ rid tags, TelEffect.mark_run_completed rid tags ∉
      process_status_update workflow_run_id (some run) status) := by
  have heq : process_status_update workflow_run_id (some run) status =
      [TelEffect.update_run_logs workflow_run_id] := by
    simp [process_status_update, h]
  refine ⟨heq, ?_, ?_, ?_⟩
  · intro rid hmem
    rw [heq] at hmem
    simp at hmem
  · intro w reason cid qid hmem
    rw [heq] at hmem
    simp at hmem
  · intro rid tags hmem
    rw [heq] at hmem
    simp at hmem

/-- Witness for C6 at a concrete input. -/
theorem c6_duplicate_delivery_is_noop_witness :
    process_status_update 42 (some ⟨"completed", some 5, some 9, none⟩) ⟨"busy"⟩ =
      [TelEffect.update_run_logs 42] :=
  (c6_duplicate_delivery_is_noop 42 ⟨"completed", some 5, some 9, none⟩ ⟨"busy"⟩ rfl).1

/-! ## Claim C5 — retryable terminal status handling -/

/-- C5 counterexample: for a `busy` terminal status on a campaign call whose
retry config has retries disabled (`should_retry` false), the claim requires
the run to be marked permanently failed by the handler; the handler instead
publishes `retry_needed` unconditionally and never emits
`mark_failed_permanently`, so the claim as stated is false at this input. -/
theorem c5_counterexample : ¬ c5_claim := by
  intro h
  have hc := h 1 ⟨"in_progress", some 5, some 9, none⟩ ⟨"busy"⟩
      ⟨false, 0, 0, false, false, false⟩ 0 5 rfl (by decide) (by decide)
  rw [show should_retry ⟨false, 0, 0, false, false, false⟩ 0
        (normalize_reason "busy") = false from rfl] at hc
  simp only [Bool.false_eq_true, if_false] at hc
  revert hc
  decide

/-- C5 amended: for every busy / no-answer terminal status on a campaign call
not already completed, the handler releases the slot, unconditionally
publishes a `retry_needed` event with the normalized reason (the
`RetryPolicy` decision is left to the event's consumer, not taken here), and
marks the workflow run completed with the failure reason recorded as tags
`not_connected`, `telephony_<status>` — in both the retry and the no-retry
case. -/
theorem c5_amended_busy_no_answer_handling (workflow_run_id : Nat)
    (run : WorkflowRunInfo) (status : StatusUpdate) (campaign_id : Nat)
    (h1 : run.campaign_id = some campaign_id) (h2 : run.state ≠ "completed")
    (h3 : status.status = "busy" ∨ status.status = "no-answer") :
    process_status_update workflow_run_id (some run) status =
      [.update_run_logs workflow_run_id,
       .release_call_slot workflow_run_id,
       .publish_retry_needed workflow_run_id (normalize_reason status.status)
         campaign_id run.queued_run_id,
       .mark_run_completed workflow_run_id
         (some (call_tags_of run ++
           ["not_connected", "telephony_" ++ py_lower status.status]))] := by
  rcases h3 with h3 | h3 <;>
    simp [process_status_update, h1, h2, h3]

/-- Witness for C5's amended theorem at a concrete input. -/
theorem c5_amended_busy_no_answer_handling_witness :
    process_status_update 1 (some ⟨"in_progress", some 5, some 9, none⟩) ⟨"busy"⟩ =
      [.update_run_logs 1, .release_call_slot 1,
       .publish_retry_needed 1 "busy" 5 (some 9),
       .mark_run_completed 1 (some ["not_connected", "telephony_busy"])] :=
  (c5_amended_busy_no_answer_handling 1 ⟨"in_progress", some 5, some 9, none⟩ ⟨"busy"⟩ 5
    rfl (by decide) (Or.inl rfl)).trans (by decide)

/-! ## Claim C7 — non-running campaigns never advance -/

/-- C7: `process_batch` on a campaign whose state is not `running` returns a
processed count of 0 (no rows dispatched) and leaves the store untouched, so
every queued row of the campaign is still queued afterwards. -/
theorem c7_non_running_returns_zero (campaign_state : Nat → CState)
    (now campaign_id batch_size : Nat) (store : List QRun)
    (h : campaign_state campaign_id ≠ CState.running) :
    process_batch campaign_state now campaign_id batch_size store = ([], store) := by
  simp [process_batch, h]

/-- Witness for C7 at a concrete input: a paused campaign with one queued row. -/
theorem c7_non_running_returns_zero_witness :
    process_batch (fun _ => CState.paused) 0 1 5 [⟨11, 1, RState.queued, none⟩] =
      ([], [⟨11, 1, RState.queued, none⟩]) :=
  c7_non_running_returns_zero (fun _ => CState.paused) 0 1 5
    [⟨11, 1, RState.queued, none⟩] (by decide)

/-! ## Claim C10 — campaign creation limits -/

/-- C10: `create_campaign` never creates a campaign when the requested
`max_concurrency` exceeds the organization limit, and (once the workflow is
found and the source validates) rejects such a request with HTTP 400; pydantic
validation confines `max_concurrency` to `[1,100]`, `max_retries` to `[0,10]`
and `retry_delay_seconds` to `[30,3600]`; and the organization limit falls
back to the default when no configuration exists. -/
theorem c10_create_campaign_limits :
    (∀ (req : CreateCampaignRequest) (workflow_name : Option String)
       (v : ValidationResult) (org_limit m : Int)
       (mc : Option Int) (rc : Option RetryConfigRequest),
       req.max_concurrency = some m → m > org_limit →
       create_campaign req workflow_name v org_limit ≠ .created mc rc) ∧
    (∀ (req : CreateCampaignRequest) (wf : String) (v : ValidationResult)
       (org_limit m : Int),
       req.max_concurrency = some m → m > org_limit → v.is_valid = true →
       create_campaign req (some wf) v org_limit =
         .http_error 400 (max_concurrency_detail m org_limit)) ∧
    (∀ r : RetryConfigRequest, valid_retry_config_request r = true →
       0 ≤ r.max_retries ∧ r.max_retries ≤ 10 ∧
       30 ≤ r.retry_delay_seconds ∧ r.retry_delay_seconds ≤ 3600) ∧
    (∀ r : CreateCampaignRequest, valid_create_campaign_request r = true →
       ∀ m : Int, r.max_concurrency = some m → 1 ≤ m ∧ m ≤ 100) ∧
    (∀ d : Int, get_org_concurrent_limit (.ok none) d = d) := by
  refine ⟨?_, ?_, ?_, ?_, ?_⟩
  · intro req workflow_name v org_limit m mc rc hm hgt
    match workflow_name with
    | none => simp [create_campaign]
    | some wf =>
      simp only [create_campaign]
      by_cases hv : (req.source_type = "csv" ∨ req.source_type = "google-sheet") ∧
          v.is_valid = false
      · rw [if_pos hv]
        simp
      · rw [if_neg hv, hm]
        simp [hgt]
  · intro req wf v org_limit m hm hgt hv
    simp only [create_campaign]
    rw [if_neg (by rintro ⟨-, h⟩; rw [hv] at h; simp at h), hm]
    simp [hgt]
  · intro r hr
    simp only [valid_retry_config_request, Bool.and_eq_true, decide_eq_true_eq] at hr
    omega
  · intro r hr m hm
    simp only [valid_create_campaign_request, Bool.and_eq_true] at hr
    rw [hm] at hr
    have := hr.1.2
    simp only [Bool.and_eq_true, decide_eq_true_eq] at this
    omega
  · intro d
    rfl

/-- Witness for C10 at concrete inputs: an over-limit request is rejected with
HTTP 400 and not created, the bounds hold for the default retry config, and
the default limit is returned without configuration. -/
theorem c10_create_campaign_limits_witness :
    create_campaign ⟨"camp", 1, "csv", "key", none, some 50⟩ (some "wf")
        { is_valid := true } 10 ≠ .created (some 50) none ∧
    create_campaign ⟨"camp", 1, "csv", "key", none, some 50⟩ (some "wf")
        { is_valid := true } 10 = .http_error 400 (max_concurrency_detail 50 10) ∧
    (0 ≤ (2 : Int) ∧ (2 : Int) ≤ 10 ∧ 30 ≤ (120 : Int) ∧ (120 : Int) ≤ 3600) ∧
    (1 ≤ (50 : Int) ∧ (50 : Int) ≤ 100) ∧
    get_org_concurrent_limit (.ok none) 10 = 10 :=
  ⟨c10_create_campaign_limits.1 ⟨"camp", 1, "csv", "key", none, some 50⟩ (some "wf")
      { is_valid := true } 10 50 (some 50) none rfl (by decide),
   c10_create_campaign_limits.2.1 ⟨"camp", 1, "csv", "key", none, some 50⟩ "wf"
      { is_valid := true } 10 50 rfl (by decide) rfl,
   c10_create_campaign_limits.2.2.1 ⟨true, 2, 120, true, true, true⟩ (by decide),
   c10_create_campaign_limits.2.2.2.1 ⟨"camp", 1, "csv", "key", none, some 50⟩
      (by decide) 50 rfl,
   c10_create_campaign_limits.2.2.2.2 10⟩

/-! ## Claim C9 — source-data validation characterization -/

/-- Unfolding of `phones_of` on a cons cell. -/
theorem phones_of_cons (idx : Nat) (row : List String) (rest : List (List String)) :
    phones_of idx (row :: rest) =
      if idx < row.length ∧ phone_cell idx row ≠ "" then
        phone_cell idx row :: phones_of idx rest
      else phones_of idx rest := by
  by_cases h1 : idx < row.length
  · by_cases h2 : phone_cell idx row ≠ ""
    · rw [if_pos ⟨h1, h2⟩]
      simp [phones_of, List.filter_cons, h1, h2]
    · rw [if_neg (by tauto)]
      simp [phones_of, List.filter_cons, h1, h2]
  · rw [if_neg (by tauto)]
    simp [phones_of, List.filter_cons, h1]

/-- The invalid-row collection is empty exactly when every row satisfies the
phone-format condition. -/
theorem collect_invalid_rows_eq_nil (idx : Nat) (rows : List (List String)) :
    ∀ i : Nat,
      (collect_invalid_rows idx i rows = [] ↔ ∀ row ∈ rows, phone_ok idx row) := by
  induction rows with
  | nil =>
    intro i
    simp [collect_invalid_rows]
  | cons row rest ih =>
    intro i
    by_cases hlen : row.length ≤ idx
    · simp only [collect_invalid_rows, if_pos hlen]
      rw [ih]
      constructor
      · intro h r hr
        rcases List.mem_cons.mp hr with rfl | hr
        · exact Or.inl hlen
        · exact h r hr
      · intro h r hr
        exact h r (List.mem_cons_of_mem _ hr)
    · simp only [collect_invalid_rows, if_neg hlen]
      by_cases hc : (py_strip (row.getD idx "") ≠ ""
          && !(py_startswith (py_strip (row.getD idx "")) "+")) = true
      · rw [if_pos hc]
        simp only [Bool.and_eq_true, decide_eq_true_eq, Bool.not_eq_true'] at hc
        constructor
        · intro h
          exact absurd h (List.cons_ne_nil _ _)
        · intro h
          have hok := h row (List.mem_cons_self _ _)
          rcases hok with h1 | h2 | h3
          · exact absurd h1 hlen
          · exact absurd h2 hc.1
          · rw [phone_cell] at h3
            rw [hc.2] at h3
            exact absurd h3 (by decide)
      · rw [if_neg hc]
        rw [ih]
        simp only [Bool.and_eq_true, decide_eq_true_eq, Bool.not_eq_true'] at hc
        have hok : phone_ok idx row := by
          by_cases he : py_strip (row.getD idx "") = ""
          · exact Or.inr (Or.inl he)
          · refine Or.inr (Or.inr ?_)
            rw [phone_cell]
            by_cases hs : py_startswith (py_strip (row.getD idx "")) "+" = true
            · exact hs
            · exact absurd ⟨he, by revert hs; cases py_startswith (py_strip (row.getD idx "")) "+" <;> simp⟩ hc
        constructor
        · intro h r hr
          rcases List.mem_cons.mp hr with rfl | hr
          · exact hok
          · exact h r hr
        · intro h r hr
          exact h r (List.mem_cons_of_mem _ hr)

/-- The duplicate-row collection is empty exactly when no collected phone is
among the already-seen keys and the phones are pairwise distinct. -/
theorem collect_duplicate_rows_eq_nil (idx : Nat) (rows : List (List String)) :
    ∀ (i : Nat) (seen_phones : List (String × Nat)),
      (collect_duplicate_rows idx i seen_phones rows = [] ↔
        ((∀ p ∈ phones_of idx rows, p ∉ seen_phones.map Prod.fst) ∧
          (phones_of idx rows).Nodup)) := by
  induction rows with
  | nil =>
    intro i seen_phones
    simp [collect_duplicate_rows, phones_of]
  | cons row rest ih =>
    intro i seen_phones
    by_cases hlen : row.length ≤ idx
    · simp only [collect_duplicate_rows, if_pos hlen]
      rw [phones_of_cons, if_neg (fun h => absurd h.1 (not_lt.mpr hlen))]
      exact ih _ _
    · simp only [collect_duplicate_rows, if_neg hlen]
      by_cases hempty : py_strip (row.getD idx "") = ""
      · rw [if_pos hempty]
        rw [phones_of_cons, if_neg (fun h => absurd hempty h.2)]
        exact ih _ _
      · rw [if_neg hempty]
        have hcons : phones_of idx (row :: rest) =
            py_strip (row.getD idx "") :: phones_of idx rest := by
          rw [phones_of_cons, if_pos ⟨not_le.mp hlen, hempty⟩]
          rfl
        have hmap : (seen_phones ++ [(py_strip (row.getD idx ""), i)]).map Prod.fst
            = seen_phones.map Prod.fst ++ [py_strip (row.getD idx "")] := by
          simp
        by_cases hseen : py_strip (row.getD idx "") ∈ seen_phones.map Prod.fst
        · rw [if_pos hseen, hcons]
          constructor
          · intro h
            exact absurd h (List.cons_ne_nil _ _)
          · intro h
            exact absurd hseen (h.1 _ (List.mem_cons_self _ _))
        · rw [if_neg hseen, hcons]
          rw [ih]
          constructor
          · rintro ⟨hrest, hnd⟩
            constructor
            · intro p hp
              rcases List.mem_cons.mp hp with rfl | hp2
              · exact hseen
              · intro hk
                refine (hrest p hp2) ?_
                rw [hmap]
                exact List.mem_append_left _ hk
            · rw [List.nodup_cons]
              refine ⟨?_, hnd⟩
              intro hmem
              have hx := hrest _ hmem
              rw [hmap] at hx
              exact hx (List.mem_append_right _ (List.mem_singleton.mpr rfl))
          · rintro ⟨hall, hnd⟩
            rw [List.nodup_cons] at hnd
            refine ⟨?_, hnd.2⟩
            intro p hp
            rw [hmap]
            intro hk
            rcases List.mem_append.mp hk with hk | hk
            · exact hall p (List.mem_cons_of_mem _ hp) hk
            · rw [List.mem_singleton] at hk
              subst hk
              exact hnd.1 hp

/-- C9: `validate_source_data` returns `is_valid = true` exactly when the
normalized headers contain `phone_number`, every row long enough to have that
column carries an empty or `+`-prefixed trimmed phone, and no non-empty
trimmed phone occurs in more than one row; and when the format check fails
the returned error carries exactly the offending row numbers. -/
theorem c9_validate_source_data_correct (headers : List String)
    (rows : List (List String)) :
    ((validate_source_data headers rows).is_valid = true ↔ c9_spec headers rows) ∧
    ("phone_number" ∈ normalize_headers headers →
      collect_invalid_rows ((normalize_headers headers).indexOf "phone_number") 2 rows ≠ [] →
      ∃ e, (validate_source_data headers rows).error = some e ∧
        e.invalid_rows =
          some (collect_invalid_rows
            ((normalize_headers headers).indexOf "phone_number") 2 rows)) := by
  by_cases hmem : "phone_number" ∈ normalize_headers headers
  · by_cases hinv : collect_invalid_rows
        ((normalize_headers headers).indexOf "phone_number") 2 rows = []
    · by_cases hdup : collect_duplicate_rows
          ((normalize_headers headers).indexOf "phone_number") 2 [] rows = []
      · have hval : validate_source_data headers rows = { is_valid := true } := by
          simp only [validate_source_data]
          rw [if_neg (by simpa using hmem)]
          simp [hinv, hdup]
        refine ⟨?_, ?_⟩
        · rw [hval]
          simp only [true_iff]
          refine ⟨hmem, ?_, ?_⟩
          · exact (collect_invalid_rows_eq_nil _ rows 2).mp hinv
          · exact ((collect_duplicate_rows_eq_nil _ rows 2 []).mp hdup).2
        · intro _ hne
          exact absurd hinv hne
      · have hval : validate_source_data headers rows =
            { is_valid := false
              error := some
                { message := "Duplicate phone numbers found in rows: "
                    ++ format_rows_str (collect_duplicate_rows
                      ((normalize_headers headers).indexOf "phone_number") 2 [] rows)
                    ++ ". Phone numbers in a campaign must be unique."
                  invalid_rows := some (collect_duplicate_rows
                    ((normalize_headers headers).indexOf "phone_number") 2 [] rows) } } := by
          simp only [validate_source_data]
          rw [if_neg (by simpa using hmem)]
          simp [hinv, hdup]
        refine ⟨?_, ?_⟩
        · rw [hval]
          simp only [Bool.false_eq_true, false_iff]
          rintro ⟨-, -, hnd⟩
          refine hdup ((collect_duplicate_rows_eq_nil _ rows 2 []).mpr ⟨?_, hnd⟩)
          intro p hp
          simp
        · intro _ hne
          exact absurd hinv hne
    · have hval : validate_source_data headers rows =
          { is_valid := false
            error := some
              { message := "Invalid phone numbers in rows: "
                  ++ format_rows_str (collect_invalid_rows
                    ((normalize_headers headers).indexOf "phone_number") 2 rows)
                  ++ ". All phone numbers must include country code (start with \x27+\x27)"
                invalid_rows := some (collect_invalid_rows
                  ((normalize_headers headers).indexOf "phone_number") 2 rows) } } := by
        simp only [validate_source_data]
        rw [if_neg (by simpa using hmem)]
        simp [hinv]
      refine ⟨?_, ?_⟩
      · rw [hval]
        simp only [Bool.false_eq_true, false_iff]
        rintro ⟨-, hok, -⟩
        exact hinv ((collect_invalid_rows_eq_nil _ rows 2).mpr hok)
      · intro _ _
        rw [hval]
        exact ⟨_, rfl, rfl⟩
  · have hval : validate_source_data headers rows =
        { is_valid := false
          error := some { message := "Source must contain a \x27phone_number\x27 column" } } := by
      simp only [validate_source_data]
      rw [if_pos (by simpa using hmem)]
    refine ⟨?_, ?_⟩
    · rw [hval]
      simp only [Bool.false_eq_true, false_iff]
      rintro ⟨h, -, -⟩
      exact hmem h
    · intro h
      exact absurd h hmem

/-- Witness for C9 at concrete inputs: a header that normalizes to
`phone_number` with two distinct `+`-prefixed phones validates; dropping the
`+` yields an error naming row 2. -/
theorem c9_validate_source_data_correct_witness :
    (validate_source_data [" Phone_Number "] [["+15550001"], ["+15550002"]]).is_valid
      = true ∧
    (∃ e, (validate_source_data ["phone_number"] [["15550001"]]).error = some e ∧
      e.invalid_rows = some [2]) := by
  constructor
  · exact (c9_validate_source_data_correct [" Phone_Number "]
      [["+15550001"], ["+15550002"]]).1.mpr (by decide)
  · have h := (c9_validate_source_data_correct ["phone_number"] [["15550001"]]).2
      (by decide) (by decide)
    have hcoll : collect_invalid_rows
        ((normalize_headers ["phone_number"]).indexOf "phone_number") 2 [["15550001"]]
        = [2] := by decide
    rw [hcoll] at h
    exact h

/-! ## Claim C8 — distinct `source_uuid` values -/

/-- Folding the decimal-decoder step from an arbitrary accumulator shifts the
accumulator by the digit count. -/
theorem decode_digits_shift (l : List Char) :
    ∀ a : Nat, l.foldl (fun a c => a * 10 + digit_val c) a
      = a * 10 ^ l.length + decode_digits l := by
  induction l with
  | nil =>
    intro a
    simp [decode_digits]
  | cons c l ih =>
    intro a
    have h1 : (c :: l).foldl (fun a c => a * 10 + digit_val c) a
        = l.foldl (fun a c => a * 10 + digit_val c) (a * 10 + digit_val c) := rfl
    have h2 : decode_digits (c :: l)
        = l.foldl (fun a c => a * 10 + digit_val c) (digit_val c) := by
      simp [decode_digits]
    rw [h1, ih, h2, ih]
    simp [pow_succ]
    ring

/-- `digit_val` inverts `Nat.digitChar` on decimal digits. -/
theorem digit_val_digitChar (n : Nat) (h : n < 10) :
    digit_val (Nat.digitChar n) = n := by
  interval_cases n <;> decide

/-- Decoding the digits produced by `Nat.toDigitsCore` (with enough fuel)
recovers the number, shifted over the existing suffix. -/
theorem decode_toDigitsCore (f : Nat) :
    ∀ (n : Nat) (l : List Char), n < 10 ^ f →
      decode_digits (Nat.toDigitsCore 10 f n l)
        = n * 10 ^ l.length + decode_digits l := by
  induction f with
  | zero =>
    intro n l hn
    have : n = 0 := by omega
    subst this
    simp [Nat.toDigitsCore]
  | succ f ih =>
    intro n l hn
    have hd : decode_digits (Nat.digitChar (n % 10) :: l)
        = (n % 10) * 10 ^ l.length + decode_digits l := by
      have h1 : decode_digits (Nat.digitChar (n % 10) :: l)
          = l.foldl (fun a c => a * 10 + digit_val c) (digit_val (Nat.digitChar (n % 10))) := by
        simp [decode_digits]
      rw [h1, decode_digits_shift, digit_val_digitChar _ (Nat.mod_lt _ (by norm_num))]
    by_cases hz : n / 10 = 0
    · have hcore : Nat.toDigitsCore 10 (f + 1) n l = Nat.digitChar (n % 10) :: l := by
        simp [Nat.toDigitsCore, hz]
      rw [hcore, hd]
      have : n % 10 = n := by omega
      rw [this]
    · have hcore : Nat.toDigitsCore 10 (f + 1) n l
          = Nat.toDigitsCore 10 f (n / 10) (Nat.digitChar (n % 10) :: l) := by
        simp [Nat.toDigitsCore, hz]
      have hlt : n / 10 < 10 ^ f := by
        rw [Nat.div_lt_iff_lt_mul (by norm_num)]
        calc n < 10 ^ (f + 1) := hn
        _ = 10 ^ f * 10 := by ring
      rw [hcore, ih _ _ hlt, hd]
      have hqr : 10 * (n / 10) + n % 10 = n := Nat.div_add_mod n 10
      have hlen : (Nat.digitChar (n % 10) :: l).length = l.length + 1 := rfl
      rw [hlen]
      nth_rewrite 3 [← hqr]
      ring

/-- Decoding the decimal representation `Nat.repr` recovers the number. -/
theorem decode_digits_repr (n : Nat) : decode_digits (Nat.repr n).data = n := by
  have hdata : (Nat.repr n).data = Nat.toDigitsCore 10 (n + 1) n [] := rfl
  rw [hdata, decode_toDigitsCore (n + 1) n [] ?_]
  · simp [decode_digits]
  · calc n < 10 ^ n := Nat.lt_pow_self (by norm_num) n
    _ ≤ 10 ^ (n + 1) := Nat.pow_le_pow_right (by norm_num) (Nat.le_succ n)

/-- `Nat.repr` is injective. -/
theorem nat_repr_injective {m n : Nat} (h : Nat.repr m = Nat.repr n) : m = n := by
  have := congrArg (fun s => decode_digits s.data) h
  simpa [decode_digits_repr] using this

/-- For a fixed file hash, `mk_source_uuid` is injective in the row index. -/
theorem mk_source_uuid_inj {file_hash : String} {m n : Nat}
    (h : mk_source_uuid file_hash m = mk_source_uuid file_hash n) : m = n := by
  have hdata := congrArg String.data h
  simp only [mk_source_uuid, String.data_append] at hdata
  have := List.append_cancel_left hdata
  have hrepr : Nat.repr m = Nat.repr n := by
    apply congrArg List.asString at this
    simpa [List.asString] using this
  exact nat_repr_injective hrepr

/-- Every record produced by the row loop starting at index `idx` carries a
uuid for some index `≥ idx`. -/
theorem build_queued_runs_uuid_ge (campaign_id : Nat) (file_hash : String)
    (headers : List String) :
    ∀ (rows : List (List String)) (idx : Nat) (q : QueuedRunRow),
      q ∈ build_queued_runs campaign_id file_hash headers idx rows →
      ∃ j, idx ≤ j ∧ q.source_uuid = mk_source_uuid file_hash j := by
  intro rows
  induction rows with
  | nil =>
    intro idx q hq
    simp [build_queued_runs] at hq
  | cons row rest ih =>
    intro idx q hq
    simp only [build_queued_runs] at hq
    by_cases ht : py_truthy (dict_get (headers.zip
        (row ++ List.replicate (headers.length - row.length) "")) "phone_number") = true
    · rw [if_pos ht] at hq
      rcases List.mem_cons.mp hq with rfl | hq
      · exact ⟨idx, le_refl _, rfl⟩
      · obtain ⟨j, hj, hu⟩ := ih (idx + 1) q hq
        exact ⟨j, by omega, hu⟩
    · rw [if_neg ht] at hq
      obtain ⟨j, hj, hu⟩ := ih (idx + 1) q hq
      exact ⟨j, by omega, hu⟩

/-- The uuids produced by the row loop are pairwise distinct. -/
theorem build_queued_runs_uuid_nodup (campaign_id : Nat) (file_hash : String)
    (headers : List String) :
    ∀ (rows : List (List String)) (idx : Nat),
      ((build_queued_runs campaign_id file_hash headers idx rows).map
        (fun q => q.source_uuid)).Nodup := by
  intro rows
  induction rows with
  | nil =>
    intro idx
    simp [build_queued_runs]
  | cons row rest ih =>
    intro idx
    simp only [build_queued_runs]
    by_cases ht : py_truthy (dict_get (headers.zip
        (row ++ List.replicate (headers.length - row.length) "")) "phone_number") = true
    · rw [if_pos ht]
      rw [List.map_cons, List.nodup_cons]
      refine ⟨?_, ih (idx + 1)⟩
      intro hmem
      obtain ⟨q, hq, hu⟩ := List.mem_map.mp hmem
      obtain ⟨j, hj, hju⟩ := build_queued_runs_uuid_ge campaign_id file_hash headers
        rest (idx + 1) q hq
      rw [hju] at hu
      have := mk_source_uuid_inj hu
      omega
    · rw [if_neg ht]
      exact ih (idx + 1)

/-- C8: the queued runs created by one `CSVSyncService.sync_source_data` call
carry pairwise-distinct `source_uuid` values (`csv_{hash}_row_{idx}`, one per
kept data-row index), so the same source row can never yield two queued runs
with the same `source_uuid`. -/
theorem c8_source_uuids_nodup (campaign_id : Nat) (file_hash : String)
    (csv_data : List (List String)) :
    ((sync_source_data_rows campaign_id file_hash csv_data).map
      (fun q => q.source_uuid)).Nodup := by
  unfold sync_source_data_rows
  by_cases hlen : csv_data.length < 2
  · simp [hlen]
  · rw [if_neg hlen]
    exact build_queued_runs_uuid_nodup campaign_id file_hash _ _ 1

/-! ## Claim C1 — exactly-once dispatch with conservation -/

/-- Folding `mark_processed` over a list of row ids marks exactly those rows. -/
theorem mark_processed_foldl (ids : List Nat) :
    ∀ s : List QRun,
      ids.foldl (fun s i => mark_processed i s) s
        = s.map (fun r => if r.id ∈ ids then { r with state := RState.processed } else r) := by
  induction ids with
  | nil =>
    intro s
    simp
  | cons i ids ih =>
    intro s
    rw [List.foldl_cons, ih, mark_processed, List.map_map]
    apply List.map_congr_left
    intro r _
    by_cases h1 : r.id = i
    · by_cases h2 : r.id ∈ ids <;>
        simp [Function.comp, h1, h2, List.mem_cons]
    · by_cases h2 : r.id ∈ ids <;>
        simp [Function.comp, h1, h2, List.mem_cons]

/-- Updating row states does not change the id column. -/
theorem store_ids_map_update (claimed : List Nat) (st : RState) (s : List QRun) :
    (s.map (fun r => if r.id ∈ claimed then { r with state := st } else r)).map
        (fun r => r.id)
      = s.map (fun r => r.id) := by
  rw [List.map_map]
  apply List.map_congr_left
  intro r _
  by_cases h : r.id ∈ claimed <;> simp [Function.comp, h]

/-- On a running campaign, `process_batch` dispatches exactly the first
`batch_size` eligible row ids. -/
theorem process_batch_fst (cs : Nat → CState) (now c k : Nat) (s : List QRun)
    (hrun : cs c = CState.running) :
    (process_batch cs now c k s).1 = (eligible_ids now c s).take k := by
  simp only [process_batch, if_neg (by simp [hrun] : ¬ cs c ≠ CState.running)]
  simp [claim_batch, eligible_ids, List.map_take]

/-- On a running campaign, `process_batch` sets exactly the claimed rows to
`processed` and leaves the rest untouched. -/
theorem process_batch_snd (cs : Nat → CState) (now c k : Nat) (s : List QRun)
    (hrun : cs c = CState.running) :
    (process_batch cs now c k s).2
      = s.map (fun r => if r.id ∈ (eligible_ids now c s).take k
          then { r with state := RState.processed } else r) := by
  simp only [process_batch, if_neg (by simp [hrun] : ¬ cs c ≠ CState.running)]
  simp only [claim_batch]
  rw [mark_processed_foldl, List.map_map]
  have hcl : ((eligible_rows now c s).take k).map (fun r => r.id)
      = (eligible_ids now c s).take k := by
    rw [eligible_ids, List.map_take]
  rw [hcl]
  apply List.map_congr_left
  intro r _
  by_cases h : r.id ∈ (eligible_ids now c s).take k <;>
    simp [Function.comp, h]

/-- Filtering on "id not in `C`" over a concatenation whose first half has all
ids in `C` and whose second half has none keeps exactly the second half. -/
theorem filter_id_not_mem (C : List Nat) :
    ∀ (A B : List QRun), (∀ r ∈ A, r.id ∈ C) → (∀ r ∈ B, r.id ∉ C) →
      (A ++ B).filter (fun r => decide (r.id ∉ C)) = B := by
  intro A
  induction A with
  | nil =>
    intro B hA hB
    rw [List.nil_append, List.filter_eq_self]
    intro r hr
    simp [hB r hr]
  | cons a A ih =>
    intro B hA hB
    rw [List.cons_append, List.filter_cons,
      if_neg (by simp [hA a (List.mem_cons_self _ _)])]
    exact ih B (fun r hr => hA r (List.mem_cons_of_mem _ hr)) hB

/-- With distinct ids, marking the first `k` eligible rows as processed leaves
exactly the remaining eligible rows. -/
theorem eligible_rows_after (now c k : Nat) (s : List QRun)
    (hnd : (s.map (fun r => r.id)).Nodup) :
    eligible_rows now c (s.map (fun r => if r.id ∈ (eligible_ids now c s).take k
        then { r with state := RState.processed } else r))
      = (eligible_rows now c s).drop k := by
  have hEnd : ((s.filter (eligible now c)).map (fun r => r.id)).Nodup :=
    ((List.filter_sublist s).map _).nodup hnd
  have htake : (eligible_ids now c s).take k
      = ((s.filter (eligible now c)).take k).map (fun r => r.id) := by
    rw [eligible_ids, eligible_rows, List.map_take]
  have hdisj : ∀ r ∈ (s.filter (eligible now c)).drop k,
      r.id ∉ (eligible_ids now c s).take k := by
    intro r hr hmem
    rw [htake] at hmem
    have hndapp : (((s.filter (eligible now c)).take k).map (fun r => r.id)
        ++ ((s.filter (eligible now c)).drop k).map (fun r => r.id)).Nodup := by
      rw [← List.map_append, List.take_append_drop]
      exact hEnd
    exact (List.nodup_append.mp hndapp).2.2 hmem (List.mem_map.mpr ⟨r, hr, rfl⟩)
  simp only [eligible_rows, List.filter_map]
  have hpt : ((eligible now c) ∘ (fun r =>
        if r.id ∈ (eligible_ids now c s).take k
          then { r with state := RState.processed } else r))
      = (fun r => decide (r.id ∉ (eligible_ids now c s).take k) && eligible now c r) := by
    funext r
    by_cases hm : r.id ∈ (eligible_ids now c s).take k
    · simp [Function.comp, hm, eligible]
    · simp [Function.comp, hm]
  rw [hpt, ← List.filter_filter]
  have hEfilter : (s.filter (eligible now c)).filter
      (fun r => decide (r.id ∉ (eligible_ids now c s).take k))
      = (s.filter (eligible now c)).drop k := by
    have happ := filter_id_not_mem ((eligible_ids now c s).take k)
      ((s.filter (eligible now c)).take k) ((s.filter (eligible now c)).drop k)
      (fun r hr => by rw [htake]; exact List.mem_map.mpr ⟨r, hr, rfl⟩)
      (fun r hr => hdisj r hr)
    rw [List.take_append_drop] at happ
    exact happ
  rw [hEfilter]
  have hfix : ∀ r ∈ (s.filter (eligible now c)).drop k,
      (if r.id ∈ (eligible_ids now c s).take k
        then { r with state := RState.processed } else r) = r := by
    intro r hr
    rw [if_neg (hdisj r hr)]
  rw [List.map_congr_left hfix]
  simp

/-- Linearized concurrent batch processing: the dispatched ids are the first
`sum batch_sizes` eligible ids in order, the remaining eligible ids are the
rest, and the id column of the store is unchanged. -/
theorem run_batches_spec (cs : Nat → CState) (now c : Nat)
    (hrun : cs c = CState.running) :
    ∀ (ks : List Nat) (s : List QRun), (s.map (fun r => r.id)).Nodup →
      (run_batches cs now c ks s).1.flatten = (eligible_ids now c s).take ks.sum ∧
      eligible_ids now c (run_batches cs now c ks s).2
        = (eligible_ids now c s).drop ks.sum ∧
      ((run_batches cs now c ks s).2).map (fun r => r.id) = s.map (fun r => r.id) := by
  intro ks
  induction ks with
  | nil =>
    intro s hnd
    simp [run_batches]
  | cons k ks ih =>
    intro s hnd
    have hsnd := process_batch_snd cs now c k s hrun
    have hids1 : ((process_batch cs now c k s).2).map (fun r => r.id)
        = s.map (fun r => r.id) := by
      rw [hsnd]
      exact store_ids_map_update _ _ s
    have hnd1 : (((process_batch cs now c k s).2).map (fun r => r.id)).Nodup := by
      rw [hids1]
      exact hnd
    have helig1 : eligible_ids now c ((process_batch cs now c k s).2)
        = (eligible_ids now c s).drop k := by
      rw [hsnd, eligible_ids, eligible_rows_after now c k s hnd, List.map_drop]
      rfl
    obtain ⟨ihj, ihd, ihi⟩ := ih ((process_batch cs now c k s).2) hnd1
    have hstep : run_batches cs now c (k :: ks) s =
        ((process_batch cs now c k s).1 ::
            (run_batches cs now c ks ((process_batch cs now c k s).2)).1,
         (run_batches cs now c ks ((process_batch cs now c k s).2)).2) := rfl
    rw [hstep]
    refine ⟨?_, ?_, ?_⟩
    · rw [List.flatten_cons, process_batch_fst cs now c k s hrun, ihj, helig1,
        List.sum_cons, List.take_add]
    · rw [ihd, helig1, List.drop_drop, List.sum_cons, Nat.add_comm]
    · rw [ihi, hids1]

/-- C1 (modelled from the spec, see above): with N eligible queued rows of a
running campaign and concurrent `process_batch` calls (linearized at their
atomic claim steps) whose combined batch capacity is at least N, the union of
rows dispatched across all calls is exactly the N distinct eligible rows with
zero duplicates; the per-caller processed counts sum to N, the number of rows
that left the queued state (no eligible queued row remains). -/
theorem c1_exactly_once_and_conservation (cs : Nat → CState) (now campaign_id : Nat)
    (batch_sizes : List Nat) (store : List QRun)
    (hrun : cs campaign_id = CState.running)
    (hnodup : (store.map (fun r => r.id)).Nodup)
    (hcap : (eligible_ids now campaign_id store).length ≤ batch_sizes.sum) :
    (run_batches cs now campaign_id batch_sizes store).1.flatten
        = eligible_ids now campaign_id store ∧
    (run_batches cs now campaign_id batch_sizes store).1.flatten.Nodup ∧
    ((run_batches cs now campaign_id batch_sizes store).1.map List.length).sum
        = (eligible_ids now campaign_id store).length ∧
    eligible_ids now campaign_id
        (run_batches cs now campaign_id batch_sizes store).2 = [] := by
  obtain ⟨hj, hd, -⟩ := run_batches_spec cs now campaign_id hrun batch_sizes store hnodup
  have hQnd : (eligible_ids now campaign_id store).Nodup :=
    ((List.filter_sublist store).map _).nodup hnodup
  have hflat : (run_batches cs now campaign_id batch_sizes store).1.flatten
      = eligible_ids now campaign_id store := by
    rw [hj]
    exact List.take_of_length_le hcap
  refine ⟨hflat, ?_, ?_, ?_⟩
  · rw [hflat]
    exact hQnd
  · rw [← List.length_flatten, hflat]
  · rw [hd]
    exact List.drop_eq_nil_of_le hcap

/-- Witness for C1 at concrete inputs: 2 eligible rows of campaign 1 (plus one
row of campaign 2), two concurrent callers of batch size 1 each: both rows are
dispatched exactly once, counts sum to 2, nothing eligible remains. -/
theorem c1_exactly_once_and_conservation_witness :
    (run_batches (fun _ => CState.running) 0 1 [1, 1]
        [⟨11, 1, RState.queued, none⟩, ⟨12, 1, RState.queued, none⟩,
         ⟨13, 2, RState.queued, none⟩]).1.flatten = [11, 12] ∧
    eligible_ids 0 1 (run_batches (fun _ => CState.running) 0 1 [1, 1]
        [⟨11, 1, RState.queued, none⟩, ⟨12, 1, RState.queued, none⟩,
         ⟨13, 2, RState.queued, none⟩]).2 = [] := by
  have h := c1_exactly_once_and_conservation (fun _ => CState.running) 0 1 [1, 1]
    [⟨11, 1, RState.queued, none⟩, ⟨12, 1, RState.queued, none⟩,
     ⟨13, 2, RState.queued, none⟩] rfl (by decide) (by decide)
  exact ⟨h.1.trans (by decide), h.2.2.2⟩
